import Mathlib

/-!
Shallow embedding of the chip8-rust interpreter core
(src/chip8/cpu.rs, src/chip8/graphics.rs, src/chip8/keypad.rs,
src/chip8/timer.rs).

Modelling conventions:
* u8 / u16 / usize values are Nat, with explicit wrapping (mod 256 for u8
  results that Rust wraps) where the source wraps; register and byte
  values are constrained by hypotheses where a theorem needs them.
* Bit operations written with masks and shifts in the source are written
  arithmetically here: x and 1 = x mod 2, (x and 0x80) shr 7 = x / 128 mod 2,
  (x and 0xF000) shr 12 = x / 4096 mod 16, shr 1 = / 2, u8 shl 1 = * 2 mod 256.
* Fallible Rust code (slice indexing that can panic, Vec.pop().unwrap(),
  Mutex lock().unwrap()) is modelled in Option, none standing for a panic.
* The outcome of a Mutex lock acquisition is passed in as an explicit
  Boolean (lockOk); the byte sampled by the rand crate for Cxkk is passed
  in as an explicit parameter (rnd).
* The Rust call stack is a Vec used with push/pop at the end; it is
  modelled as a List with the top at the head.
* The instruction log kept by cycle() is diagnostic only and is omitted.
* The Dxyn draw additionally returns the list of set_pos results (ghost
  data used only to state the collision-flag property); the Cpu component
  of the result follows the source exactly.
-/

namespace Chip8

/-- Program-counter effect of an instruction (enum NextPCValue in cpu.rs). -/
inductive NextPC where
  | next
  | skip
  | jump (addr : Nat)

/-- The interpreter state (struct Cpu in cpu.rs).  The graphics matrix
(64x32, from graphics.rs) and the 16-key snapshot (keypad.rs) are inlined
as fields; wrapping is the config option wrapping_enabled(). -/
structure Cpu where
  memory : Nat → Nat
  v : Nat → Nat
  i : Nat
  pc : Nat
  timers : Nat × Nat
  stack : List Nat
  screen : Nat → Nat → Nat
  keypad : Nat → Bool
  wrapping : Bool

/-- Reading memory[addr]: the Rust array access panics out of bounds. -/
def memRead (s : Cpu) (addr : Nat) : Option Nat :=
  if addr < 4096 then some (s.memory addr) else none

/-- Writing memory[addr]: the Rust array access panics out of bounds. -/
def memWrite (s : Cpu) (addr val : Nat) : Option Cpu :=
  if addr < 4096 then some {s with memory := Function.update s.memory addr val} else none

/-- Graphics::set_pos from graphics.rs: XOR val into the screen at (x, y),
returning the new screen and the changed flag (changed = old pixel AND val).
With wrapping disabled an out-of-range coordinate leaves the screen alone
and returns 0; with wrapping enabled the coordinates are taken mod 64/32. -/
def setPos (wrapping : Bool) (screen : Nat → Nat → Nat) (x y val : Nat) :
    (Nat → Nat → Nat) × Nat :=
  if !wrapping then
    if x < 64 && y < 32 then
      (Function.update screen y (Function.update (screen y) x (screen y x ^^^ val)),
       screen y x &&& val)
    else (screen, 0)
  else
    (Function.update screen (y % 32)
       (Function.update (screen (y % 32)) (x % 64) (screen (y % 32) (x % 64) ^^^ val)),
     screen (y % 32) (x % 64) &&& val)

/-- Keypad::is_pressed from keypad.rs: out-of-range keys read as not pressed. -/
def isPressed (s : Cpu) (key : Nat) : Bool :=
  if key ≤ 15 then s.keypad key else false

/-- op_00e0: clear the screen. -/
def op_00e0 (s : Cpu) : Cpu × NextPC :=
  ({s with screen := fun _ _ => 0}, .next)

/-- op_00ee: return from a subroutine; pop().unwrap() panics on an empty stack. -/
def op_00ee (s : Cpu) : Option (Cpu × NextPC) :=
  match s.stack with
  | [] => none
  | a :: rest => some ({s with stack := rest}, .jump a)

/-- op_1nnn: jump to nnn. -/
def op_1nnn (s : Cpu) (nnn : Nat) : Cpu × NextPC :=
  (s, .jump nnn)

/-- op_2nnn: push pc+2, jump to nnn. -/
def op_2nnn (s : Cpu) (nnn : Nat) : Cpu × NextPC :=
  ({s with stack := (s.pc + 2) :: s.stack}, .jump nnn)

/-- op_3xkk: skip next instruction if v[x] = nn. -/
def op_3xkk (s : Cpu) (x nn : Nat) : Cpu × NextPC :=
  (s, if s.v x = nn then .skip else .next)

/-- op_4xkk: skip next instruction if v[x] ≠ nn. -/
def op_4xkk (s : Cpu) (x nn : Nat) : Cpu × NextPC :=
  (s, if s.v x ≠ nn then .skip else .next)

/-- op_5xy0: skip next instruction if v[x] = v[y]. -/
def op_5xy0 (s : Cpu) (x y : Nat) : Cpu × NextPC :=
  (s, if s.v x = s.v y then .skip else .next)

/-- op_6xnn: v[x] := nn. -/
def op_6xnn (s : Cpu) (x nn : Nat) : Cpu × NextPC :=
  ({s with v := Function.update s.v x nn}, .next)

/-- op_7xnn: v[x] := v[x] wrapping_add nn; no flag effect. -/
def op_7xnn (s : Cpu) (x nn : Nat) : Cpu × NextPC :=
  ({s with v := Function.update s.v x ((s.v x + nn) % 256)}, .next)

/-- op_8xy0: v[x] := v[y]. -/
def op_8xy0 (s : Cpu) (x y : Nat) : Cpu × NextPC :=
  ({s with v := Function.update s.v x (s.v y)}, .next)

/-- op_8xy1: v[x] := v[x] OR v[y]. -/
def op_8xy1 (s : Cpu) (x y : Nat) : Cpu × NextPC :=
  ({s with v := Function.update s.v x (s.v x ||| s.v y)}, .next)

/-- op_8xy2: v[x] := v[x] AND v[y]. -/
def op_8xy2 (s : Cpu) (x y : Nat) : Cpu × NextPC :=
  ({s with v := Function.update s.v x (s.v x &&& s.v y)}, .next)

/-- op_8xy3: v[x] := v[x] XOR v[y]. -/
def op_8xy3 (s : Cpu) (x y : Nat) : Cpu × NextPC :=
  ({s with v := Function.update s.v x (s.v x ^^^ s.v y)}, .next)

/-- op_8xy4: v[x] := v[x] overflowing_add v[y]; then v[0xF] := carry.
The result write happens first, the flag write second (u8 values). -/
def op_8xy4 (s : Cpu) (x y : Nat) : Cpu × NextPC :=
  let v1 := Function.update s.v x ((s.v x + s.v y) % 256)
  ({s with v := Function.update v1 15 (if 256 ≤ s.v x + s.v y then 1 else 0)}, .next)

/-- op_8xy5: v[x] := v[x] overflowing_sub v[y]; then v[0xF] := 1 if no borrow.
The result write happens first, the flag write second (u8 values). -/
def op_8xy5 (s : Cpu) (x y : Nat) : Cpu × NextPC :=
  let v1 := Function.update s.v x ((s.v x + 256 - s.v y) % 256)
  ({s with v := Function.update v1 15 (if s.v x < s.v y then 0 else 1)}, .next)

/-- op_8x06: v[0xF] := v[x] AND 1; then v[x] := v[x] shr 1.
The flag write happens first; the shift reads v[x] after that write. -/
def op_8x06 (s : Cpu) (x : Nat) : Cpu × NextPC :=
  let v1 := Function.update s.v 15 (s.v x % 2)
  ({s with v := Function.update v1 x (v1 x / 2)}, .next)

/-- op_8xy7: v[x] := v[y] overflowing_sub v[x]; then v[0xF] := 1 if no borrow.
The result write happens first, the flag write second (u8 values). -/
def op_8xy7 (s : Cpu) (x y : Nat) : Cpu × NextPC :=
  let v1 := Function.update s.v x ((s.v y + 256 - s.v x) % 256)
  ({s with v := Function.update v1 15 (if s.v y < s.v x then 0 else 1)}, .next)

/-- op_8xye: v[0xF] := (v[x] AND 0x80) shr 7; then v[x] := v[x] shl 1 (u8 wrap).
The flag write happens first; the shift reads v[x] after that write. -/
def op_8xye (s : Cpu) (x : Nat) : Cpu × NextPC :=
  let v1 := Function.update s.v 15 (s.v x / 128 % 2)
  ({s with v := Function.update v1 x (v1 x * 2 % 256)}, .next)

/-- op_9xy0: skip next instruction if v[x] ≠ v[y]. -/
def op_9xy0 (s : Cpu) (x y : Nat) : Cpu × NextPC :=
  (s, if s.v x ≠ s.v y then .skip else .next)

/-- op_annn: i := nnn. -/
def op_annn (s : Cpu) (nnn : Nat) : Cpu × NextPC :=
  ({s with i := nnn}, .next)

/-- op_bnnn: jump to v[0] + nnn. -/
def op_bnnn (s : Cpu) (nnn : Nat) : Cpu × NextPC :=
  (s, .jump (s.v 0 + nnn))

/-- op_cxnn: v[x] := rnd AND nn, where rnd is the byte sampled from [0,255). -/
def op_cxnn (s : Cpu) (x nn rnd : Nat) : Cpu × NextPC :=
  ({s with v := Function.update s.v x (rnd &&& nn)}, .next)

/-- One XOR-plot of the Dxyn inner loop (cpu.rs lines 372-385): the x
coordinate is recomputed from the current v[x] at every plot, the row
byte and the y coordinate were computed at the start of the row; the
changed flag returned by set_pos is OR-accumulated into v[0xF].  The
second component returns that flag (ghost data for the statements). -/
def plotOne (s : Cpu) (x y_coord w rowByte : Nat) : Cpu × Nat :=
  let x_coord := if !s.wrapping then s.v x + w else (s.v x + w) % 64
  let color := rowByte / 2 ^ (7 - w) % 2
  let r := setPos s.wrapping s.screen x_coord y_coord color
  ({s with screen := r.1, v := Function.update s.v 15 (s.v 15 ||| r.2)}, r.2)

/-- Fold step over the 8 sprite columns, collecting the changed flags. -/
def rowStep (x y_coord rowByte : Nat) (acc : Cpu × List Nat) (w : Nat) : Cpu × List Nat :=
  ((plotOne acc.1 x y_coord w rowByte).1, acc.2 ++ [(plotOne acc.1 x y_coord w rowByte).2])

/-- One row of the Dxyn draw: the y coordinate is computed from the current
v[y] plus the row index (wrapped mod 32 when wrapping is enabled), the row
byte is memory[i + height] (a panicking access when out of bounds). -/
def drawRowF (s : Cpu) (x y height : Nat) : Option (Cpu × List Nat) :=
  let y_coord := if !s.wrapping then s.v y + height else (s.v y + height) % 32
  match memRead s (s.i + height) with
  | none => none
  | some rowByte => some ((List.range 8).foldl (rowStep x y_coord rowByte) (s, []))

/-- Outer fold step of the Dxyn draw, appending each row's changed flags. -/
def dxynStep (x y : Nat) (acc : Cpu × List Nat) (h : Nat) : Option (Cpu × List Nat) :=
  match drawRowF acc.1 x y h with
  | none => none
  | some r => some (r.1, acc.2 ++ r.2)

/-- The Dxyn draw with its ghost flag trace: v[0xF] := 0, then the n rows
are drawn in order.  The Cpu component follows op_dxyn in cpu.rs. -/
def dxynF (s : Cpu) (x y n : Nat) : Option (Cpu × List Nat) :=
  (List.range n).foldlM (dxynStep x y) ({s with v := Function.update s.v 15 0}, [])

/-- op_dxyn: draw the n-row sprite at (v[x], v[y]); the final draw() call
only renders and touches no modelled state. -/
def op_dxyn (s : Cpu) (x y n : Nat) : Option (Cpu × NextPC) :=
  match dxynF s x y n with
  | none => none
  | some r => some (r.1, .next)

/-- op_ex9e: skip next instruction if key v[x] is pressed. -/
def op_ex9e (s : Cpu) (x : Nat) : Cpu × NextPC :=
  (s, if isPressed s (s.v x) then .skip else .next)

/-- op_exa1: skip next instruction if key v[x] is not pressed. -/
def op_exa1 (s : Cpu) (x : Nat) : Cpu × NextPC :=
  (s, if isPressed s (s.v x) then .next else .skip)

/-- op_fx07: v[x] := delay timer.  The source calls lock().unwrap(), so a
failed lock acquisition panics (modelled as none). -/
def op_fx07 (lockOk : Bool) (s : Cpu) (x : Nat) : Option (Cpu × NextPC) :=
  if lockOk then some ({s with v := Function.update s.v x s.timers.1}, .next)
  else none

/-- op_fx0a: scan the 16-key snapshot in index order; at the first pressed
key the source stores the iterated bool cast to u8 (that is, 1) into v[x]
and advances; with no key pressed it jumps to the same pc. -/
def op_fx0a (s : Cpu) (x : Nat) : Cpu × NextPC :=
  match (List.range 16).find? (fun k => s.keypad k) with
  | some _ => ({s with v := Function.update s.v x 1}, .next)
  | none => (s, .jump s.pc)

/-- op_fx15: delay timer := v[x], keeping the sound timer; the source uses
if let Ok, so a failed lock acquisition skips the write. -/
def op_fx15 (lockOk : Bool) (s : Cpu) (x : Nat) : Cpu × NextPC :=
  (if lockOk then {s with timers := (s.v x, s.timers.2)} else s, .next)

/-- op_fx18: sound timer := v[x], keeping the delay timer; the source uses
if let Ok, so a failed lock acquisition skips the write. -/
def op_fx18 (lockOk : Bool) (s : Cpu) (x : Nat) : Cpu × NextPC :=
  (if lockOk then {s with timers := (s.timers.1, s.v x)} else s, .next)

/-- op_fx1e: i := i + v[x]; no flag, no masking. -/
def op_fx1e (s : Cpu) (x : Nat) : Cpu × NextPC :=
  ({s with i := s.i + s.v x}, .next)

/-- op_fx29: i := v[x] * 5 (font glyph base address). -/
def op_fx29 (s : Cpu) (x : Nat) : Cpu × NextPC :=
  ({s with i := s.v x * 5}, .next)

/-- op_fx33: BCD of v[x] stored at i, i+1, i+2 (panicking memory accesses). -/
def op_fx33 (s : Cpu) (x : Nat) : Option (Cpu × NextPC) := do
  let s ← memWrite s s.i (s.v x / 100)
  let s ← memWrite s (s.i + 1) (s.v x % 100 / 10)
  let s ← memWrite s (s.i + 2) (s.v x % 10)
  pure (s, .next)

/-- op_fx55: store v[0]..v[x] at memory[i..i+x] (panicking memory accesses). -/
def op_fx55 (s : Cpu) (x : Nat) : Option (Cpu × NextPC) := do
  let s ← (List.range (x + 1)).foldlM (fun s k => memWrite s (s.i + k) (s.v k)) s
  pure (s, .next)

/-- op_fx65: load v[0]..v[x] from memory[i..i+x] (panicking memory accesses). -/
def op_fx65 (s : Cpu) (x : Nat) : Option (Cpu × NextPC) := do
  let s ← (List.range (x + 1)).foldlM
    (fun s k =>
      match memRead s (s.i + k) with
      | none => none
      | some b => some {s with v := Function.update s.v k b}) s
  pure (s, .next)

/-- The decode-and-dispatch match of execute_instr (cpu.rs lines 126-163):
the four nibble discriminants, with nnn = instr AND 0x0FFF and
nn = instr AND 0x00FF, written arithmetically.  The wildcard arm makes an
unrecognized pattern a no-op with NextPC.next. -/
def dispatch (s : Cpu) (instr : Nat) (lockOk : Bool) (rnd : Nat) : Option (Cpu × NextPC) :=
  match instr / 4096 % 16, instr / 256 % 16, instr / 16 % 16, instr % 16 with
  | 0x0, 0x0, 0xe, 0x0 => some (op_00e0 s)
  | 0x0, 0x0, 0xe, 0xe => op_00ee s
  | 0x1, _, _, _ => some (op_1nnn s (instr % 4096))
  | 0x2, _, _, _ => some (op_2nnn s (instr % 4096))
  | 0x3, x, _, _ => some (op_3xkk s x (instr % 256))
  | 0x4, x, _, _ => some (op_4xkk s x (instr % 256))
  | 0x5, x, y, 0x0 => some (op_5xy0 s x y)
  | 0x6, x, _, _ => some (op_6xnn s x (instr % 256))
  | 0x7, x, _, _ => some (op_7xnn s x (instr % 256))
  | 0x8, x, y, 0x0 => some (op_8xy0 s x y)
  | 0x8, x, y, 0x1 => some (op_8xy1 s x y)
  | 0x8, x, y, 0x2 => some (op_8xy2 s x y)
  | 0x8, x, y, 0x3 => some (op_8xy3 s x y)
  | 0x8, x, y, 0x4 => some (op_8xy4 s x y)
  | 0x8, x, y, 0x5 => some (op_8xy5 s x y)
  | 0x8, x, _, 0x6 => some (op_8x06 s x)
  | 0x8, x, y, 0x7 => some (op_8xy7 s x y)
  | 0x8, x, _, 0xe => some (op_8xye s x)
  | 0x9, x, y, 0x0 => some (op_9xy0 s x y)
  | 0xa, _, _, _ => some (op_annn s (instr % 4096))
  | 0xb, _, _, _ => some (op_bnnn s (instr % 4096))
  | 0xc, x, _, _ => some (op_cxnn s x (instr % 256) rnd)
  | 0xd, x, y, n => op_dxyn s x y n
  | 0xe, x, 0x9, 0xe => some (op_ex9e s x)
  | 0xe, x, 0xa, 0x1 => some (op_exa1 s x)
  | 0xf, x, 0x0, 0x7 => op_fx07 lockOk s x
  | 0xf, x, 0x0, 0xa => some (op_fx0a s x)
  | 0xf, x, 0x1, 0x5 => some (op_fx15 lockOk s x)
  | 0xf, x, 0x1, 0x8 => some (op_fx18 lockOk s x)
  | 0xf, x, 0x1, 0xe => some (op_fx1e s x)
  | 0xf, x, 0x2, 0x9 => some (op_fx29 s x)
  | 0xf, x, 0x3, 0x3 => op_fx33 s x
  | 0xf, x, 0x5, 0x5 => op_fx55 s x
  | 0xf, x, 0x6, 0x5 => op_fx65 s x
  | _, _, _, _ => some (s, .next)

/-- Applying the NextPCValue returned by an instruction (cpu.rs 167-171). -/
def applyPc (s : Cpu) : NextPC → Cpu
  | .next => {s with pc := s.pc + 2}
  | .skip => {s with pc := s.pc + 4}
  | .jump a => {s with pc := a}

/-- execute_instr: dispatch, then apply the program-counter change. -/
def executeInstr (s : Cpu) (instr : Nat) (lockOk : Bool) (rnd : Nat) : Option Cpu :=
  (dispatch s instr lockOk rnd).map (fun r => applyPc r.1 r.2)

/-- cycle(): when not paused, fetch the big-endian instruction at pc
(panicking memory accesses) and execute it; when paused, do nothing.
The instruction log is diagnostic only and omitted. -/
def cycle (s : Cpu) (paused : Bool) (lockOk : Bool) (rnd : Nat) : Option Cpu :=
  if paused then some s
  else do
    let hi ← memRead s s.pc
    let lo ← memRead s (s.pc + 1)
    executeInstr s (hi <<< 8 ||| lo) lockOk rnd

/-- Whether the 16-bit value matches one of the opcode patterns of the
dispatch match (everything except the wildcard arm). -/
def recognizedOpcode (instr : Nat) : Bool :=
  let n0 := instr / 4096 % 16
  let n1 := instr / 256 % 16
  let n2 := instr / 16 % 16
  let n3 := instr % 16
  (n0 == 0 && n1 == 0 && n2 == 0xe && n3 == 0) ||
  (n0 == 0 && n1 == 0 && n2 == 0xe && n3 == 0xe) ||
  n0 == 1 || n0 == 2 || n0 == 3 || n0 == 4 ||
  (n0 == 5 && n3 == 0) ||
  n0 == 6 || n0 == 7 ||
  (n0 == 8 && (n3 == 0 || n3 == 1 || n3 == 2 || n3 == 3 || n3 == 4 ||
               n3 == 5 || n3 == 6 || n3 == 7 || n3 == 0xe)) ||
  (n0 == 9 && n3 == 0) ||
  n0 == 0xa || n0 == 0xb || n0 == 0xc || n0 == 0xd ||
  (n0 == 0xe && n2 == 0x9 && n3 == 0xe) ||
  (n0 == 0xe && n2 == 0xa && n3 == 0x1) ||
  (n0 == 0xf && n2 == 0x0 && n3 == 0x7) ||
  (n0 == 0xf && n2 == 0x0 && n3 == 0xa) ||
  (n0 == 0xf && n2 == 0x1 && n3 == 0x5) ||
  (n0 == 0xf && n2 == 0x1 && n3 == 0x8) ||
  (n0 == 0xf && n2 == 0x1 && n3 == 0xe) ||
  (n0 == 0xf && n2 == 0x2 && n3 == 0x9) ||
  (n0 == 0xf && n2 == 0x3 && n3 == 0x3) ||
  (n0 == 0xf && n2 == 0x5 && n3 == 0x5) ||
  (n0 == 0xf && n2 == 0x6 && n3 == 0x5)

/-- One iteration of the Timer::run loop (timer.rs lines 38-56), acting on
the timer pair and the must_beep flag.  When the TimerPair lock acquisition
fails (lockOk = false) the whole update is skipped. -/
def timerTick (lockOk : Bool) (p : (Nat × Nat) × Bool) : (Nat × Nat) × Bool :=
  if lockOk then
    let d := p.1.1
    let st := p.1.2
    let d2 := if d > 0 then d - 1 else d
    if st > 0 then
      ((d2, st - 1), if st - 1 ≠ 0 then true else false)
    else ((d2, st), p.2)
  else p


/-- A concrete all-zero interpreter state used by the concrete evaluations. -/
def cpu0 : Cpu :=
  { memory := fun _ => 0, v := fun _ => 0, i := 0, pc := 0x200, timers := (0, 0),
    stack := [], screen := fun _ _ => 0, keypad := fun _ => false, wrapping := false }

/-- Concrete state for the double-draw scenario: an 8x1 sprite byte 0xFF at
I = 0x300, drawn at (V0, V1) = (3, 4), wrapping disabled, screen clear. -/
def cpuD4 : Cpu :=
  { memory := Function.update (fun _ => 0) 0x300 0xFF,
    v := fun r => if r = 0 then 3 else if r = 1 then 4 else 0,
    i := 0x300, pc := 0x200, timers := (0, 0), stack := [],
    screen := fun _ _ => 0, keypad := fun _ => false, wrapping := false }

/-- Concrete state for the C5 witness: V0 = 1, V1 = 2 (spec example). -/
def cpuC5 : Cpu :=
  {cpu0 with v := fun r => if r = 0 then 1 else if r = 1 then 2 else 0}

/-- A concrete all-set screen for the C6 witness. -/
def screenW : Nat → Nat → Nat := fun _ _ => 1

/-- OR of a list of collision flags. -/
def orFlags : List Nat → Nat
  | [] => 0
  | a :: t => a ||| orFlags t

theorem orFlags_append (l1 l2 : List Nat) :
    orFlags (l1 ++ l2) = orFlags l1 ||| orFlags l2 := by
  induction l1 with
  | nil => simp [orFlags]
  | cons a t ih => simp [orFlags, ih, Nat.or_assoc]

theorem or01 (a b : Nat) (ha : a ≤ 1) (hb : b ≤ 1) :
    a ||| b ≤ 1 ∧ (a ||| b = 1 ↔ a = 1 ∨ b = 1) := by
  interval_cases a <;> interval_cases b <;> simp

theorem orFlags_le_one (l : List Nat) (h : ∀ f ∈ l, f ≤ 1) : orFlags l ≤ 1 := by
  induction l with
  | nil => simp [orFlags]
  | cons a t ih =>
    have ha : a ≤ 1 := h a (by simp)
    have ht : orFlags t ≤ 1 := ih (fun f hf => h f (by simp [hf]))
    exact (or01 a (orFlags t) ha ht).1

theorem orFlags_eq_one (l : List Nat) (h : ∀ f ∈ l, f ≤ 1) :
    (orFlags l = 1 ↔ 1 ∈ l) := by
  induction l with
  | nil => simp [orFlags]
  | cons a t ih =>
    have ha : a ≤ 1 := h a (by simp)
    have ht : orFlags t ≤ 1 := orFlags_le_one t (fun f hf => h f (by simp [hf]))
    have := (or01 a (orFlags t) ha ht).2
    simp only [orFlags, this, List.mem_cons]
    rw [ih (fun f hf => h f (by simp [hf]))]
    constructor
    · rintro (rfl | hm)
      · exact Or.inl rfl
      · exact Or.inr hm
    · rintro (rfl | hm)
      · exact Or.inl rfl
      · exact Or.inr hm

theorem setPos_snd_le (wr : Bool) (sc : Nat → Nat → Nat) (x y val : Nat) :
    (setPos wr sc x y val).2 ≤ val := by
  unfold setPos
  split
  · split
    · exact Nat.and_le_right
    · exact Nat.zero_le val
  · exact Nat.and_le_right

theorem plotOne_spec (s : Cpu) (x yc w rb : Nat) :
    (plotOne s x yc w rb).1.v 15 = s.v 15 ||| (plotOne s x yc w rb).2 ∧
    (plotOne s x yc w rb).2 ≤ 1 ∧
    (plotOne s x yc w rb).1.i = s.i ∧
    (plotOne s x yc w rb).1.memory = s.memory ∧
    (plotOne s x yc w rb).1.wrapping = s.wrapping := by
  refine ⟨?_, ?_, rfl, rfl, rfl⟩
  · simp [plotOne]
  · have := setPos_snd_le s.wrapping s.screen
      (if !s.wrapping then s.v x + w else (s.v x + w) % 64) yc (rb / 2 ^ (7 - w) % 2)
    have hc : rb / 2 ^ (7 - w) % 2 ≤ 1 := by omega
    exact le_trans this hc

theorem rowFold_spec (x yc rb : Nat) (ws : List Nat) :
    ∀ (acc : Cpu × List Nat),
    (ws.foldl (rowStep x yc rb) acc).1.i = acc.1.i ∧
    (ws.foldl (rowStep x yc rb) acc).1.memory = acc.1.memory ∧
    (ws.foldl (rowStep x yc rb) acc).1.wrapping = acc.1.wrapping ∧
    ∃ tail, (ws.foldl (rowStep x yc rb) acc).2 = acc.2 ++ tail ∧
      (∀ f ∈ tail, f ≤ 1) ∧
      (ws.foldl (rowStep x yc rb) acc).1.v 15 = acc.1.v 15 ||| orFlags tail := by
  induction ws with
  | nil =>
    intro acc
    refine ⟨rfl, rfl, rfl, [], by simp, by simp, ?_⟩
    simp [orFlags]
  | cons w ws ih =>
    intro acc
    obtain ⟨hi, hm, hw, tail, ht, htle, hv⟩ := ih (rowStep x yc rb acc w)
    have hp := plotOne_spec acc.1 x yc w rb
    refine ⟨?_, ?_, ?_, (plotOne acc.1 x yc w rb).2 :: tail, ?_, ?_, ?_⟩
    · simpa [rowStep, hp.2.2.1] using hi
    · simpa [rowStep, hp.2.2.2.1] using hm
    · simpa [rowStep, hp.2.2.2.2] using hw
    · simp only [List.foldl_cons] at *
      simpa [rowStep] using ht
    · intro f hf
      rcases List.mem_cons.mp hf with rfl | hf
      · exact hp.2.1
      · exact htle f hf
    · simp only [List.foldl_cons] at *
      rw [hv]
      simp only [rowStep]
      rw [hp.1, orFlags, Nat.or_assoc]


theorem drawRowF_spec (s : Cpu) (x y hgt : Nat) (hb : s.i + hgt < 4096) :
    ∃ s2 fl, drawRowF s x y hgt = some (s2, fl) ∧ s2.i = s.i ∧ s2.memory = s.memory ∧
      s2.wrapping = s.wrapping ∧ (∀ f ∈ fl, f ≤ 1) ∧ s2.v 15 = s.v 15 ||| orFlags fl := by
  obtain ⟨hi, hm, hw, tail, ht, htle, hv⟩ :=
    rowFold_spec x (if !s.wrapping then s.v y + hgt else (s.v y + hgt) % 32)
      (s.memory (s.i + hgt)) (List.range 8) (s, [])
  have ht2 : (List.foldl (rowStep x (if !s.wrapping then s.v y + hgt else (s.v y + hgt) % 32)
      (s.memory (s.i + hgt))) (s, []) (List.range 8)).2 = tail := by simpa using ht
  refine ⟨(List.foldl (rowStep x (if !s.wrapping then s.v y + hgt else (s.v y + hgt) % 32)
      (s.memory (s.i + hgt))) (s, []) (List.range 8)).1, tail, ?_, hi, hm, hw, htle, hv⟩
  unfold drawRowF memRead
  rw [if_pos hb, ← ht2]

theorem dxynRows_spec (x y : Nat) (hs : List Nat) :
    ∀ (acc : Cpu × List Nat), (∀ h ∈ hs, acc.1.i + h < 4096) →
    ∃ s2 tail, hs.foldlM (dxynStep x y) acc = some (s2, acc.2 ++ tail) ∧
      s2.i = acc.1.i ∧ s2.memory = acc.1.memory ∧ s2.wrapping = acc.1.wrapping ∧
      (∀ f ∈ tail, f ≤ 1) ∧ s2.v 15 = acc.1.v 15 ||| orFlags tail := by
  induction hs with
  | nil =>
    intro acc _
    exact ⟨acc.1, [], by simp, rfl, rfl, rfl, by simp, by simp [orFlags]⟩
  | cons hgt hs ih =>
    intro acc hb
    obtain ⟨s2, fl, hrow, hi2, hm2, hw2, hfle, hv2⟩ :=
      drawRowF_spec acc.1 x y hgt (hb hgt (by simp))
    have hstep : dxynStep x y acc hgt = some (s2, acc.2 ++ fl) := by
      simp [dxynStep, hrow]
    obtain ⟨s3, tail, hrest, hi3, hm3, hw3, htle, hv3⟩ :=
      ih (s2, acc.2 ++ fl) (by intro h hh; rw [hi2]; exact hb h (by simp [hh]))
    refine ⟨s3, fl ++ tail, ?_, by rw [hi3, hi2], by rw [hm3, hm2], by rw [hw3, hw2], ?_, ?_⟩
    · rw [List.foldlM_cons, hstep]
      simpa [List.append_assoc] using hrest
    · intro f hf
      rcases List.mem_append.mp hf with hf | hf
      · exact hfle f hf
      · exact htle f hf
    · rw [hv3, hv2, orFlags_append, Nat.or_assoc]

theorem dxynF_spec (s : Cpu) (x y n : Nat) (hb : ∀ h, h < n → s.i + h < 4096) :
    ∃ s2 flags, dxynF s x y n = some (s2, flags) ∧ s2.i = s.i ∧ s2.memory = s.memory ∧
      s2.wrapping = s.wrapping ∧ (∀ f ∈ flags, f ≤ 1) ∧ s2.v 15 = orFlags flags := by
  obtain ⟨s2, tail, hfold, hi2, hm2, hw2, htle, hv2⟩ :=
    dxynRows_spec x y (List.range n) ({s with v := Function.update s.v 15 0}, [])
      (by intro h hh; simpa using hb h (List.mem_range.mp hh))
  refine ⟨s2, tail, ?_, hi2, hm2, hw2, htle, ?_⟩
  · simpa [dxynF] using hfold
  · rw [hv2]
    simp



set_option maxHeartbeats 2000000 in
/-- Instructions matching no recognized pattern fall through the dispatch
match to the wildcard arm, a state-preserving NextPC.next. -/
theorem dispatch_unrecognized (s : Cpu) (instr : Nat) (lk : Bool) (rd : Nat)
    (h : recognizedOpcode instr = false) :
    dispatch s instr lk rd = some (s, NextPC.next) := by
  simp only [recognizedOpcode] at h
  unfold dispatch
  generalize h0 : instr / 4096 % 16 = n0 at h ⊢
  generalize h1 : instr / 256 % 16 = n1 at h ⊢
  generalize h2 : instr / 16 % 16 = n2 at h ⊢
  generalize h3 : instr % 16 = n3 at h ⊢
  have b0 : n0 < 16 := by omega
  have b1 : n1 < 16 := by omega
  have b2 : n2 < 16 := by omega
  have b3 : n3 < 16 := by omega
  interval_cases n0 <;>
    [ (interval_cases n1 <;> first
        | rfl
        | (interval_cases n2 <;> first
            | rfl
            | (interval_cases n3 <;> first | rfl | (simp_all; done))));
      (simp_all; done);
      (simp_all; done);
      (simp_all; done);
      (simp_all; done);
      (interval_cases n3 <;> first | rfl | (simp_all; done));
      (simp_all; done);
      (simp_all; done);
      (interval_cases n3 <;> first | rfl | (simp_all; done));
      (interval_cases n3 <;> first | rfl | (simp_all; done));
      (simp_all; done);
      (simp_all; done);
      (simp_all; done);
      (simp_all; done);
      (interval_cases n2 <;> first
        | rfl
        | (interval_cases n3 <;> first | rfl | (simp_all; done)));
      (interval_cases n2 <;> first
        | rfl
        | (interval_cases n3 <;> first | rfl | (simp_all; done)))]


/-- Claim C1, the code evaluated at the failing input: executing Fx0A with
x = 0 on a state where exactly key 5 is pressed advances PC by 2 but stores
1 into V0 (the iterated bool cast to u8), not the pressed key's index 5;
with no key pressed, PC and V0 are left unchanged. -/
theorem C1_fx0a_code_behavior :
    (executeInstr {cpu0 with keypad := fun k => k == 5} 0xF00A true 0).map
        (fun s => (s.v 0, s.pc)) = some (1, 0x202) ∧
    (executeInstr cpu0 0xF00A true 0).map (fun s => (s.v 0, s.pc)) = some (0, 0x200) :=
  ⟨by decide, by decide⟩

/-- Claim C2, counterexample: for 8x06 executed with x = 0xF and V[0xF] = 3,
the evicted least-significant bit is 1 but VF after the instruction is 0:
the general-purpose shift of VF overwrites the flag, so VF does not equal
the flag defined by the opcode's semantics. -/
theorem C2_counterexample :
    (op_8x06 {cpu0 with v := Function.update cpu0.v 15 3} 15).1.v 15 ≠
      {cpu0 with v := Function.update cpu0.v 15 3}.v 15 % 2 := by decide

/-- Claim C2 as amended: with x = 0xF the arithmetic opcodes 8xy4, 8xy5,
8xy7 leave VF equal to their carry/no-borrow flag (the flag write lands
last), and Dxyn leaves VF equal to the OR-accumulated collision flag (1
exactly when some plot cleared a set pixel); but the shifts 8x06 and 8xyE
write the flag first and then shift VF as the general-purpose destination,
so VF ends as 0 after 8x06 and as twice the evicted most-significant bit
after 8xyE, not as the evicted bit. -/
theorem C2_flag_overwrite_semantics (s : Cpu) (y : Nat) (hy : y ≤ 15)
    (hvf : s.v 15 < 256) :
    ((op_8xy4 s 15 y).1.v 15 = if 256 ≤ s.v 15 + s.v y then 1 else 0) ∧
    ((op_8xy5 s 15 y).1.v 15 = if s.v y ≤ s.v 15 then 1 else 0) ∧
    ((op_8xy7 s 15 y).1.v 15 = if s.v 15 ≤ s.v y then 1 else 0) ∧
    ((op_8x06 s 15).1.v 15 = 0) ∧
    ((op_8xye s 15).1.v 15 = 2 * (s.v 15 / 128)) ∧
    (∀ n, (∀ h, h < n → s.i + h < 4096) →
      ∃ s2 flags, dxynF s 15 y n = some (s2, flags) ∧ (s2.v 15 = 1 ↔ 1 ∈ flags)) := by
  refine ⟨?_, ?_, ?_, ?_, ?_, ?_⟩
  · simp [op_8xy4]
  · simp only [op_8xy5, Function.update_same]
    split_ifs <;> omega
  · simp only [op_8xy7, Function.update_same]
    split_ifs <;> omega
  · simp only [op_8x06, Function.update_same]
    omega
  · simp only [op_8xye, Function.update_same]
    omega
  · intro n hb
    obtain ⟨s2, flags, hF, _, _, _, hle, hv⟩ := dxynF_spec s 15 y n hb
    exact ⟨s2, flags, hF, by rw [hv]; exact orFlags_eq_one flags hle⟩

/-- Witness for the amended claim C2 at a concrete state and register. -/
theorem C2_flag_overwrite_semantics_witness :
    (1 : Nat) ≤ 15 ∧ ({cpu0 with v := Function.update cpu0.v 15 200}.v 15 < 256) ∧
    ((op_8x06 {cpu0 with v := Function.update cpu0.v 15 200} 15).1.v 15 = 0) ∧
    ((op_8xye {cpu0 with v := Function.update cpu0.v 15 200} 15).1.v 15 =
      2 * ({cpu0 with v := Function.update cpu0.v 15 200}.v 15 / 128)) :=
  ⟨by decide, by decide,
    (C2_flag_overwrite_semantics {cpu0 with v := Function.update cpu0.v 15 200} 1
      (by decide) (by decide)).2.2.2.1,
    (C2_flag_overwrite_semantics {cpu0 with v := Function.update cpu0.v 15 200} 1
      (by decide) (by decide)).2.2.2.2.1⟩

/-- Claim C3, counterexample: Fx07 acquires the TimerPair lock with
lock().unwrap(), so a failed lock acquisition panics (modelled as none)
instead of skipping the update. -/
theorem C3_counterexample_fx07_panics : executeInstr cpu0 0xF007 false 0 = none := rfl

/-- Claim C3 as amended: on a failed TimerPair lock acquisition, Fx15 and
Fx18 skip the timer write and leave all state unchanged except the normal
PC advance, and the TimerTicker tick leaves the timer pair and the audio
flag unchanged, without crashing; Fx07 however panics (unwrap) instead of
skipping. -/
theorem C3_lock_failure_handling (s : Cpu) (x : Nat) (hx : x ≤ 15) (rnd : Nat)
    (p : (Nat × Nat) × Bool) :
    executeInstr s (0xF015 + 256 * x) false rnd = some {s with pc := s.pc + 2} ∧
    executeInstr s (0xF018 + 256 * x) false rnd = some {s with pc := s.pc + 2} ∧
    timerTick false p = p ∧
    executeInstr s (0xF007 + 256 * x) false rnd = none := by
  refine ⟨?_, ?_, rfl, ?_⟩
  · unfold executeInstr dispatch
    rw [show (0xF015 + 256 * x) / 4096 % 16 = 15 from by omega,
        show (0xF015 + 256 * x) / 16 % 16 = 1 from by omega,
        show (0xF015 + 256 * x) % 16 = 5 from by omega]
    rfl
  · unfold executeInstr dispatch
    rw [show (0xF018 + 256 * x) / 4096 % 16 = 15 from by omega,
        show (0xF018 + 256 * x) / 16 % 16 = 1 from by omega,
        show (0xF018 + 256 * x) % 16 = 8 from by omega]
    rfl
  · unfold executeInstr dispatch
    rw [show (0xF007 + 256 * x) / 4096 % 16 = 15 from by omega,
        show (0xF007 + 256 * x) / 16 % 16 = 0 from by omega,
        show (0xF007 + 256 * x) % 16 = 7 from by omega]
    rfl

/-- Witness for the amended claim C3 at a concrete state and register. -/
theorem C3_lock_failure_handling_witness :
    (3 : Nat) ≤ 15 ∧
    executeInstr cpu0 (0xF015 + 256 * 3) false 0 = some {cpu0 with pc := cpu0.pc + 2} ∧
    timerTick false ((2, 2), true) = ((2, 2), true) ∧
    executeInstr cpu0 (0xF007 + 256 * 3) false 0 = none :=
  ⟨by decide,
    (C3_lock_failure_handling cpu0 3 (by decide) 0 ((2, 2), true)).1,
    (C3_lock_failure_handling cpu0 3 (by decide) 0 ((2, 2), true)).2.2.1,
    (C3_lock_failure_handling cpu0 3 (by decide) 0 ((2, 2), true)).2.2.2⟩


/-- Claim C4: a Dxyn draw with x distinct from 0xF and I + n - 1 in bounds
succeeds, leaves I unchanged, and VF afterwards equals the bitwise-OR of the
per-plot set_pos results (each 0 or 1), so VF = 1 exactly when at least one
XOR-plot cleared a set pixel and VF = 0 exactly when none did; and drawing
the 8x1 sprite byte 0xFF twice at the same in-range coordinates with
wrapping disabled yields VF = 0 after the first draw and VF = 1 after the
second. -/
theorem C4_dxyn_collision_flag :
    (∀ (s : Cpu) (x y n : Nat), x ≤ 15 → x ≠ 15 → (∀ h, h < n → s.i + h < 4096) →
      ∃ s2 flags, dxynF s x y n = some (s2, flags) ∧ s2.i = s.i ∧
        (∀ f ∈ flags, f ≤ 1) ∧ s2.v 15 = orFlags flags ∧
        (s2.v 15 = 1 ↔ 1 ∈ flags) ∧ (s2.v 15 = 0 ↔ ¬ 1 ∈ flags)) ∧
    (Option.bind (dxynF cpuD4 0 1 1) (fun r1 =>
        Option.map (fun r2 => (r1.1.v 15, r2.1.v 15)) (dxynF r1.1 0 1 1)) =
      some (0, 1)) := by
  constructor
  · intro s x y n _ _ hb
    obtain ⟨s2, flags, hF, hi, _, _, hle, hv⟩ := dxynF_spec s x y n hb
    have h1 := orFlags_eq_one flags hle
    have hle1 := orFlags_le_one flags hle
    refine ⟨s2, flags, hF, hi, hle, hv, ?_, ?_⟩
    · rw [hv]; exact h1
    · rw [hv]
      constructor
      · intro h0 hmem
        rw [h1.mpr hmem] at h0
        omega
      · intro hmem
        rcases Nat.lt_or_ge (orFlags flags) 1 with h | h
        · omega
        · exact absurd (h1.mp (by omega)) hmem
  · decide

/-- Witness for claim C4 at the concrete double-draw state. -/
theorem C4_dxyn_collision_flag_witness :
    (0 : Nat) ≤ 15 ∧ (0 : Nat) ≠ 15 ∧
    (∃ s2 flags, dxynF cpuD4 0 1 1 = some (s2, flags) ∧ s2.i = cpuD4.i ∧
      (∀ f ∈ flags, f ≤ 1) ∧ s2.v 15 = orFlags flags ∧
      (s2.v 15 = 1 ↔ 1 ∈ flags) ∧ (s2.v 15 = 0 ↔ ¬ 1 ∈ flags)) :=
  ⟨by decide, by decide,
    C4_dxyn_collision_flag.1 cpuD4 0 1 1 (by decide) (by decide)
      (by intro h hh; interval_cases h; decide)⟩

/-- Claim C5: the arithmetic opcodes executed with a destination register x
distinct from 0xF: 7xkk wraps mod 256 and leaves VF alone; 8xy4 wraps with
VF = 1 exactly on carry; 8xy5 computes Vx - Vy mod 256 with VF = 1 exactly
when Vx is at least Vy; 8xy7 computes Vy - Vx mod 256 with VF = 1 exactly
when Vy is at least Vx; 8x06 sets VF to the evicted low bit and halves Vx;
8xyE sets VF to the evicted high bit and doubles Vx mod 256. -/
theorem C5_arithmetic_opcodes (s : Cpu) (x y nn : Nat) (hx : x ≤ 15) (hy : y ≤ 15)
    (hx15 : x ≠ 15) (hvx : s.v x < 256) (hvy : s.v y < 256) :
    ((op_7xnn s x nn).1.v x = (s.v x + nn) % 256 ∧ (op_7xnn s x nn).1.v 15 = s.v 15) ∧
    ((op_8xy4 s x y).1.v x = (s.v x + s.v y) % 256 ∧
      ((op_8xy4 s x y).1.v 15 = if 256 ≤ s.v x + s.v y then 1 else 0)) ∧
    ((op_8xy5 s x y).1.v x = (s.v x + 256 - s.v y) % 256 ∧
      ((op_8xy5 s x y).1.v 15 = if s.v y ≤ s.v x then 1 else 0)) ∧
    ((op_8xy7 s x y).1.v x = (s.v y + 256 - s.v x) % 256 ∧
      ((op_8xy7 s x y).1.v 15 = if s.v x ≤ s.v y then 1 else 0)) ∧
    ((op_8x06 s x).1.v x = s.v x / 2 ∧ (op_8x06 s x).1.v 15 = s.v x % 2) ∧
    ((op_8xye s x).1.v x = s.v x * 2 % 256 ∧ (op_8xye s x).1.v 15 = s.v x / 128) := by
  have hx15s : (15 : Nat) ≠ x := fun h => hx15 h.symm
  refine ⟨⟨?_, ?_⟩, ⟨?_, ?_⟩, ⟨?_, ?_⟩, ⟨?_, ?_⟩, ⟨?_, ?_⟩, ⟨?_, ?_⟩⟩
  · simp [op_7xnn]
  · simp [op_7xnn, Function.update_noteq hx15s]
  · simp [op_8xy4, Function.update_noteq hx15]
  · simp [op_8xy4]
  · simp [op_8xy5, Function.update_noteq hx15]
  · simp only [op_8xy5, Function.update_same]
    split_ifs <;> omega
  · simp [op_8xy7, Function.update_noteq hx15]
  · simp only [op_8xy7, Function.update_same]
    split_ifs <;> omega
  · simp [op_8x06, Function.update_noteq hx15s, Function.update_noteq hx15]
  · simp [op_8x06, Function.update_noteq hx15s, Function.update_noteq hx15]
  · simp [op_8xye, Function.update_noteq hx15s, Function.update_noteq hx15]
  · simp only [op_8xye, Function.update_same, Function.update_noteq hx15,
      Function.update_noteq hx15s]
    omega


/-- Witness for claim C5: in particular the spec example 8xy5 with Vx = 1,
Vy = 2 gives Vx = 0xFF and VF = 0. -/
theorem C5_arithmetic_opcodes_witness :
    (0 : Nat) ≤ 15 ∧
    ((op_8xy5 cpuC5 0 1).1.v 0 = (cpuC5.v 0 + 256 - cpuC5.v 1) % 256 ∧
      ((op_8xy5 cpuC5 0 1).1.v 15 = if cpuC5.v 1 ≤ cpuC5.v 0 then 1 else 0)) ∧
    (op_8xy5 cpuC5 0 1).1.v 0 = 0xFF ∧ (op_8xy5 cpuC5 0 1).1.v 15 = 0 :=
  ⟨by decide,
    (C5_arithmetic_opcodes cpuC5 0 1 7 (by decide) (by decide) (by decide)
      (by decide) (by decide)).2.2.1,
    by decide, by decide⟩


/-- Claim C6: the framebuffer plot contract of set_pos.  With wrapping
disabled an out-of-range plot is a no-op returning flag 0; in range the
pixel at (x, y) is XORed with the bit and every other pixel is untouched;
with wrapping enabled the pixel at (x mod 64, y mod 32) is XORed and every
other pixel is untouched.  In both plotting cases the returned changed
flag is 1 exactly when the prior pixel value was 1 and the plotted bit
is 1. -/
theorem C6_setPos_contract (screen : Nat → Nat → Nat) (x y val : Nat) :
    (64 ≤ x ∨ 32 ≤ y → setPos false screen x y val = (screen, 0)) ∧
    (x < 64 → y < 32 →
      (setPos false screen x y val).1 y x = screen y x ^^^ val ∧
      (∀ y0 x0, y0 ≠ y ∨ x0 ≠ x → (setPos false screen x y val).1 y0 x0 = screen y0 x0) ∧
      (val ≤ 1 → screen y x ≤ 1 →
        ((setPos false screen x y val).2 = 1 ↔ screen y x = 1 ∧ val = 1))) ∧
    ((setPos true screen x y val).1 (y % 32) (x % 64) = screen (y % 32) (x % 64) ^^^ val ∧
      (∀ y0 x0, y0 ≠ y % 32 ∨ x0 ≠ x % 64 →
        (setPos true screen x y val).1 y0 x0 = screen y0 x0) ∧
      (val ≤ 1 → screen (y % 32) (x % 64) ≤ 1 →
        ((setPos true screen x y val).2 = 1 ↔ screen (y % 32) (x % 64) = 1 ∧ val = 1))) := by
  refine ⟨?_, ?_, ?_⟩
  · intro h
    have hc : ¬((x < 64 && y < 32) = true) := by
      simp only [Bool.and_eq_true, decide_eq_true_eq, not_and]
      omega
    simp [setPos, hc]
  · intro hx hy
    have hc : (x < 64 && y < 32) = true := by
      simp only [Bool.and_eq_true, decide_eq_true_eq]
      exact ⟨hx, hy⟩
    refine ⟨?_, ?_, ?_⟩
    · simp [setPos, hc]
    · intro y0 x0 h
      by_cases hy0 : y0 = y
      · subst hy0
        rcases h with h | h
        · exact absurd rfl h
        · simp [setPos, hc, Function.update_same, Function.update_noteq h]
      · simp [setPos, hc, Function.update_noteq hy0]
    · intro hval hpix
      simp only [setPos, Bool.not_false, if_true, hc]
      interval_cases val <;> interval_cases hp : (screen y x) <;> simp_all
  · refine ⟨?_, ?_, ?_⟩
    · simp [setPos]
    · intro y0 x0 h
      by_cases hy0 : y0 = y % 32
      · subst hy0
        rcases h with h | h
        · exact absurd rfl h
        · simp [setPos, Function.update_same, Function.update_noteq h]
      · simp [setPos, Function.update_noteq hy0]
    · intro hval hpix
      simp only [setPos, Bool.not_true, if_false]
      interval_cases val <;> interval_cases hp : (screen (y % 32) (x % 64)) <;> simp_all

/-- Witness for claim C6: plotting at x = 64 with wrapping disabled is a
no-op returning 0, and an in-range plot of bit 1 onto a set pixel reports
a collision. -/
theorem C6_setPos_contract_witness :
    ((64 : Nat) ≤ 64 ∨ (32 : Nat) ≤ 0) ∧
    setPos false screenW 64 0 1 = (screenW, 0) ∧
    ((setPos false screenW 0 0 1).2 = 1 ↔ screenW 0 0 = 1 ∧ (1 : Nat) = 1) :=
  ⟨by decide,
    (C6_setPos_contract screenW 64 0 1).1 (by decide),
    ((C6_setPos_contract screenW 0 0 1).2.1 (by decide) (by decide)).2.2
      (by decide) (by decide)⟩

/-- Claim C7: executing one unpaused cycle whose fetched 16-bit instruction
matches none of the recognized opcode patterns advances PC by exactly 2 and
changes nothing else: decoding is total and an unknown pattern is never a
fatal error. -/
theorem C7_unknown_opcode_cycle (s : Cpu) (lockOk : Bool) (rnd : Nat)
    (hpc : s.pc + 1 < 4096)
    (hunk : recognizedOpcode (s.memory s.pc <<< 8 ||| s.memory (s.pc + 1)) = false) :
    cycle s false lockOk rnd = some {s with pc := s.pc + 2} := by
  have h1 : memRead s s.pc = some (s.memory s.pc) := by
    unfold memRead
    rw [if_pos (by omega)]
  have h2 : memRead s (s.pc + 1) = some (s.memory (s.pc + 1)) := by
    unfold memRead
    rw [if_pos hpc]
  unfold cycle
  rw [if_neg (by decide : ¬(false = true)), h1, h2]
  simp only [Option.bind_eq_bind, Option.some_bind]
  unfold executeInstr
  rw [dispatch_unrecognized s _ lockOk rnd hunk]
  rfl

/-- Witness for claim C7 at the all-zero state, whose fetched instruction
0x0000 matches no pattern. -/
theorem C7_unknown_opcode_cycle_witness :
    cpu0.pc + 1 < 4096 ∧
    recognizedOpcode (cpu0.memory cpu0.pc <<< 8 ||| cpu0.memory (cpu0.pc + 1)) = false ∧
    cycle cpu0 false true 0 = some {cpu0 with pc := cpu0.pc + 2} :=
  ⟨by decide, by decide, C7_unknown_opcode_cycle cpu0 true 0 (by decide) (by decide)⟩

/-- Claim C8: a TimerTicker tick maps (delay, sound) to the saturating
decrements (never wrapping), (0, 0) is a fixed point of any number of
ticks, and on a tick where sound was decremented the audio flag becomes
true exactly when the new sound value is still positive and false exactly
when it reached 0, while a tick with sound already 0 leaves the flag
untouched. -/
theorem C8_timer_tick (d st k : Nat) (b : Bool) (lockOk : Bool) :
    ((timerTick true ((d, st), b)).1.1 = if 0 < d then d - 1 else 0) ∧
    ((timerTick true ((d, st), b)).1.2 = if 0 < st then st - 1 else 0) ∧
    ((timerTick lockOk)^[k] ((0, 0), b) = ((0, 0), b)) ∧
    (0 < st → ((timerTick true ((d, st), b)).2 = true ↔ 0 < st - 1)) ∧
    (0 < st → ((timerTick true ((d, st), b)).2 = false ↔ st - 1 = 0)) ∧
    ((timerTick true ((d, 0), b)).2 = b) := by
  refine ⟨?_, ?_, ?_, ?_, ?_, rfl⟩
  · by_cases hst : 0 < st <;> by_cases hd : 0 < d <;>
      simp [timerTick, hst, hd] <;> omega
  · by_cases hst : 0 < st <;> by_cases hd : 0 < d <;>
      simp [timerTick, hst, hd] <;> omega
  · have hfix : timerTick lockOk ((0, 0), b) = ((0, 0), b) := by
      cases lockOk <;> rfl
    exact Function.iterate_fixed hfix k
  · intro hst
    simp [timerTick, hst]
    try omega
  · intro hst
    simp [timerTick, hst]
    try omega

/-- Witness for claim C8 at a concrete timer state with sound timer 1. -/
theorem C8_timer_tick_witness :
    (0 : Nat) < 1 ∧
    ((timerTick true ((5, 1), true)).1.2 = if (0 : Nat) < 1 then 1 - 1 else 0) ∧
    ((timerTick true ((5, 1), true)).2 = false ↔ 1 - 1 = 0) ∧
    ((timerTick true)^[3] ((0, 0), true) = ((0, 0), true)) :=
  ⟨by decide, (C8_timer_tick 5 1 3 true true).2.1,
    (C8_timer_tick 5 1 3 true true).2.2.2.2.1 (by decide),
    (C8_timer_tick 5 1 3 true true).2.2.1⟩

/-- Claim C9: 2nnn at PC = p pushes p + 2 and jumps to nnn, and a
subsequent 00EE pops that address, sets PC to p + 2 and restores the stack
to its prior contents. -/
theorem C9_call_return_roundtrip (s : Cpu) (nnn : Nat) (h : nnn < 4096)
    (lk lk2 : Bool) (rd rd2 : Nat) :
    executeInstr s (0x2000 + nnn) lk rd =
      some {s with stack := (s.pc + 2) :: s.stack, pc := nnn} ∧
    executeInstr {s with stack := (s.pc + 2) :: s.stack, pc := nnn} 0x00EE lk2 rd2 =
      some {s with pc := s.pc + 2} := by
  constructor
  · unfold executeInstr dispatch
    rw [show (0x2000 + nnn) / 4096 % 16 = 2 from by omega,
        show (0x2000 + nnn) % 4096 = nnn from by omega]
    rfl
  · rfl

/-- Witness for claim C9: the spec instance with PC = 0x200 ends at
PC = 0x202, not 0x200. -/
theorem C9_call_return_roundtrip_witness :
    (0x300 : Nat) < 4096 ∧
    executeInstr cpu0 (0x2000 + 0x300) true 0 =
      some {cpu0 with stack := (cpu0.pc + 2) :: cpu0.stack, pc := 0x300} ∧
    executeInstr {cpu0 with stack := (cpu0.pc + 2) :: cpu0.stack, pc := 0x300} 0x00EE true 0 =
      some {cpu0 with pc := cpu0.pc + 2} :=
  ⟨by decide, (C9_call_return_roundtrip cpu0 0x300 (by decide) true true 0 0).1,
    (C9_call_return_roundtrip cpu0 0x300 (by decide) true true 0 0).2⟩

/-- Claim C10: executing Dxyn with n = 0 on any state plots nothing and
leaves the framebuffer, memory, I and the stack unchanged, yet still
unconditionally sets VF to 0 and advances PC by 2. -/
theorem C10_dxy0_effect (s : Cpu) (x y : Nat) (hx : x ≤ 15) (hy : y ≤ 15)
    (lk : Bool) (rd : Nat) :
    executeInstr s (0xD000 + 256 * x + 16 * y) lk rd =
      some {s with v := Function.update s.v 15 0, pc := s.pc + 2} := by
  unfold executeInstr dispatch
  rw [show (0xD000 + 256 * x + 16 * y) / 4096 % 16 = 13 from by omega,
      show (0xD000 + 256 * x + 16 * y) % 16 = 0 from by omega]
  rfl

/-- Witness for claim C10 at the all-zero state with x = 1, y = 2. -/
theorem C10_dxy0_effect_witness :
    (1 : Nat) ≤ 15 ∧ (2 : Nat) ≤ 15 ∧
    executeInstr cpu0 (0xD000 + 256 * 1 + 16 * 2) true 0 =
      some {cpu0 with v := Function.update cpu0.v 15 0, pc := cpu0.pc + 2} :=
  ⟨by decide, by decide, C10_dxy0_effect cpu0 1 2 (by decide) (by decide) true 0⟩

end Chip8
